import Mathlib

/-!
Formal verification of the force-field term kernels of the `mdforce` package,
centred on `mdforce/terms_multi_vectorized.py` (the batch dispatch layer) and
the per-term kernels and distance kernel it calls.

Embedding conventions:
* a coordinate/force vector of spatial dimension `m` is a function `Fin m → ℝ`;
* a batch of `n` such vectors is `Fin n → Vec m`;
* Python floats are embedded as real numbers; the `/` of the source is real
  division (total, with the Lean convention `x / 0 = 0`); an instrumented
  variant with guarded division (`cdiv`) makes the division-by-zero branch of
  the kernels explicit;
* a Python function body consisting of `pass` completes normally and returns
  `None`; this is embedded by `PyResult.pyNone`.
-/

open Finset

/-- A coordinate or force vector of spatial dimension `m`. -/
abbrev Vec (m : ℕ) : Type := Fin m → ℝ

noncomputable section

namespace distances

/-- Modelled from the spec: the module `mdforce.distances` is not part of the
given source tree; only its caller `terms_multi_vectorized` is.  Per spec §4.1,
`two_arrays` takes a reference point `q_i` (length `m`) and a batch `q_js` of
`n` points and returns the displacement vectors `rel k = q_i - q_js k`
(an `n × m` batch) together with their Euclidean norms
`dist k = ‖rel k‖ = √(∑ i, (rel k i)²)`. -/
def two_arrays {n m : ℕ} (q_i : Vec m) (q_js : Fin n → Vec m) :
    (Fin n → Vec m) × (Fin n → ℝ) :=
  (fun k i => q_i i - q_js k i,
   fun k => Real.sqrt (∑ i, (q_i i - q_js k i) ^ 2))

end distances

namespace terms_lazy

/-- Modelled from the spec: the module `mdforce.terms_multi_vectorized_lazy`
is not part of the given source tree; only its caller is.  Per spec §4.2, the
Coulomb kernel receives displacement vectors `q_jsi`, distances `d_ijs`, the
per-pair charge products `c_ijs`, and the Coulomb constant `k_e`; per pair `k`
it computes the potential `e k = k_e * c_ijs k / d_ijs k` and the force on the
reference `f k = e k / d_ijs k ^ 2 * q_jsi k` (the potential is reused in the
force expression). -/
def coulomb {n m : ℕ} (q_jsi : Fin n → Vec m) (d_ijs : Fin n → ℝ)
    (c_ijs : Fin n → ℝ) (k_e : ℝ) : (Fin n → Vec m) × (Fin n → ℝ) :=
  let e_ijs : Fin n → ℝ := fun k => k_e * c_ijs k / d_ijs k
  (fun k i => e_ijs k / d_ijs k ^ 2 * q_jsi k i, e_ijs)

/-- Modelled from the spec: per spec §4.3, the Lennard-Jones kernel receives
displacement vectors, distances and the per-pair `A`/`B` coefficients; per pair
`k` it computes `e k = a k / d k ^ 12 - b k / d k ^ 6` and the force on the
reference `f k = (12 * a k / d k ^ 14 - 6 * b k / d k ^ 8) * q_jsi k`. -/
def lennard_jones {n m : ℕ} (q_jsi : Fin n → Vec m) (d_ijs : Fin n → ℝ)
    (a_ijs b_ijs : Fin n → ℝ) : (Fin n → Vec m) × (Fin n → ℝ) :=
  (fun k i =>
      (12 * a_ijs k / d_ijs k ^ 14 - 6 * b_ijs k / d_ijs k ^ 8) * q_jsi k i,
   fun k => a_ijs k / d_ijs k ^ 12 - b_ijs k / d_ijs k ^ 6)

/-- Modelled from the spec: per spec §4.4, the harmonic bond-vibration kernel
receives displacement vectors, distances, equilibrium lengths `d0` and force
constants `k_b`; per pair `k` it computes `e k = k_b k * (d k - d0 k) ^ 2`
(no ½ prefactor) and the force on the reference
`f k = -2 * k_b k * (d k - d0 k) / d k * q_jsi k`. -/
def bond_vibration_harmonic {n m : ℕ} (q_jsi : Fin n → Vec m)
    (d_ijs : Fin n → ℝ) (d0_ijs k_b_ijs : Fin n → ℝ) :
    (Fin n → Vec m) × (Fin n → ℝ) :=
  (fun k i =>
      -2 * k_b_ijs k * (d_ijs k - d0_ijs k) / d_ijs k * q_jsi k i,
   fun k => k_b_ijs k * (d_ijs k - d0_ijs k) ^ 2)

end terms_lazy

namespace terms_multi_vectorized

/-- From the source (`terms_multi_vectorized.coulomb`): compute displacement
vectors and distances with `distances.two_arrays`, feed them and the charge
product `c_i * c_js` to the lazy Coulomb kernel, and return the sum of the
per-pair forces over the partner axis, the negated per-pair force batch, and
the per-pair potential batch. -/
def coulomb {n m : ℕ} (q_i : Vec m) (q_js : Fin n → Vec m)
    (c_i : ℝ) (c_js : Fin n → ℝ) (k_e : ℝ) :
    Vec m × (Fin n → Vec m) × (Fin n → ℝ) :=
  let qd := distances.two_arrays q_i q_js
  let fe := terms_lazy.coulomb qd.1 qd.2 (fun k => c_i * c_js k) k_e
  (fun i => ∑ k, fe.1 k i, fun k i => -fe.1 k i, fe.2)

/-- From the source (`terms_multi_vectorized.lennard_jones`): same dispatch
pattern as `coulomb`, with the lazy Lennard-Jones kernel and the per-pair
`A`/`B` coefficient batches. -/
def lennard_jones {n m : ℕ} (q_i : Vec m) (q_js : Fin n → Vec m)
    (a_ijs b_ijs : Fin n → ℝ) :
    Vec m × (Fin n → Vec m) × (Fin n → ℝ) :=
  let qd := distances.two_arrays q_i q_js
  let fe := terms_lazy.lennard_jones qd.1 qd.2 a_ijs b_ijs
  (fun i => ∑ k, fe.1 k i, fun k i => -fe.1 k i, fe.2)

/-- From the source (`terms_multi_vectorized.bond_vibration_harmonic`): same
dispatch pattern as `coulomb`, with the lazy harmonic-bond kernel and the
per-pair equilibrium-length and force-constant batches. -/
def bond_vibration_harmonic {n m : ℕ} (q_i : Vec m) (q_js : Fin n → Vec m)
    (d0_ijs k_b_ijs : Fin n → ℝ) :
    Vec m × (Fin n → Vec m) × (Fin n → ℝ) :=
  let qd := distances.two_arrays q_i q_js
  let fe := terms_lazy.bond_vibration_harmonic qd.1 qd.2 d0_ijs k_b_ijs
  (fun i => ∑ k, fe.1 k i, fun k i => -fe.1 k i, fe.2)

/-- Outcome of calling a Python function: it either raises an exception,
completes normally returning `None`, or completes normally with a value. -/
inductive PyResult (α : Type) : Type where
  | raised : String → PyResult α
  | pyNone : PyResult α
  | value : α → PyResult α

/-- From the source (`terms_multi_vectorized.angle_vibration_harmonic`): the
body is a `pass` placeholder (TODO), so the call completes normally and
returns Python `None`; no exception is raised and no numeric result is
produced. -/
def angle_vibration_harmonic {n m : ℕ} (q_is : Fin n → Vec m) (q_j : Vec m)
    (q_ks : Fin n → Vec m) (angle0_isjks k_a_isjks : Fin n → ℝ) :
    PyResult ((Fin n → Vec m) × Vec m × (Fin n → Vec m) × (Fin n → ℝ)) :=
  PyResult.pyNone

/-- From the source (`terms_multi_vectorized.dihedral`): a `pass` placeholder;
the call completes normally and returns Python `None`. -/
def dihedral : PyResult Unit :=
  PyResult.pyNone

/-- From the source (`terms_multi_vectorized.improper_dihedral`): a `pass`
placeholder; the call completes normally and returns Python `None`. -/
def improper_dihedral : PyResult Unit :=
  PyResult.pyNone

end terms_multi_vectorized

/-- Guarded real division for the instrumented embedding: `none` is the
division-by-zero error branch, taken exactly when the divisor is zero. -/
def cdiv (a b : ℝ) : Option ℝ :=
  if b = 0 then none else some (a / b)

/-- Error-propagating map over a list: the whole computation fails as soon as
one element fails (as an unguarded numeric error would surface from a
vectorized kernel). -/
def optionMap {α β : Type} (f : α → Option β) : List α → Option (List β)
  | [] => some []
  | a :: l => (f a).bind fun b => (optionMap f l).bind fun bs => some (b :: bs)

/-- Instrumented per-pair Coulomb kernel: the divisions of
`terms_lazy.coulomb` with the division-by-zero branch made explicit. -/
def coulomb_pair_checked {m : ℕ} (rel : Vec m) (d c_ij k_e : ℝ) :
    Option (Vec m × ℝ) :=
  (cdiv (k_e * c_ij) d).bind fun e =>
    (cdiv e (d ^ 2)).bind fun s =>
      some (fun i => s * rel i, e)

/-- Instrumented per-pair Lennard-Jones kernel: the divisions of
`terms_lazy.lennard_jones` with the division-by-zero branch made explicit. -/
def lennard_jones_pair_checked {m : ℕ} (rel : Vec m) (d a b : ℝ) :
    Option (Vec m × ℝ) :=
  (cdiv a (d ^ 12)).bind fun ea =>
    (cdiv b (d ^ 6)).bind fun eb =>
      (cdiv (12 * a) (d ^ 14)).bind fun fa =>
        (cdiv (6 * b) (d ^ 8)).bind fun fb =>
          some (fun i => (fa - fb) * rel i, ea - eb)

/-- Instrumented batch Coulomb dispatch: `terms_multi_vectorized.coulomb`
with every division guarded; returns the per-pair (force on reference,
potential) results, or `none` when a division by zero occurs. -/
def coulomb_checked {n m : ℕ} (q_i : Vec m) (q_js : Fin n → Vec m)
    (c_i : ℝ) (c_js : Fin n → ℝ) (k_e : ℝ) : Option (List (Vec m × ℝ)) :=
  let qd := distances.two_arrays q_i q_js
  optionMap
    (fun k => coulomb_pair_checked (qd.1 k) (qd.2 k) (c_i * c_js k) k_e)
    (List.finRange n)

/-- Instrumented batch Lennard-Jones dispatch: every division guarded. -/
def lennard_jones_checked {n m : ℕ} (q_i : Vec m) (q_js : Fin n → Vec m)
    (a_ijs b_ijs : Fin n → ℝ) : Option (List (Vec m × ℝ)) :=
  let qd := distances.two_arrays q_i q_js
  optionMap
    (fun k => lennard_jones_pair_checked (qd.1 k) (qd.2 k) (a_ijs k) (b_ijs k))
    (List.finRange n)

end

/-- C8: Concrete Coulomb scenario: reference at the origin with charge `+1`,
one partner at `(1,0,0)` with charge `+1`, and `k_e = 1`: the per-pair
potential energy is exactly `1` and the total force on the reference is
exactly `(-1, 0, 0)` — magnitude `1`, directed away from the partner
(repulsive convention), matching `f = e / dist ^ 2 * rel` with
`rel = q_i - q_j`. -/
theorem C8_concrete_coulomb_scenario :
    (terms_multi_vectorized.coulomb (m := 3) ![0, 0, 0] ![![1, 0, 0]]
        1 ![1] 1).2.2 0 = 1 ∧
    (terms_multi_vectorized.coulomb (m := 3) ![0, 0, 0] ![![1, 0, 0]]
        1 ![1] 1).1 0 = -1 ∧
    (terms_multi_vectorized.coulomb (m := 3) ![0, 0, 0] ![![1, 0, 0]]
        1 ![1] 1).1 1 = 0 ∧
    (terms_multi_vectorized.coulomb (m := 3) ![0, 0, 0] ![![1, 0, 0]]
        1 ![1] 1).1 2 = 0 := by
  refine ⟨?_, ?_, ?_, ?_⟩ <;>
    simp [terms_multi_vectorized.coulomb, terms_lazy.coulomb,
      distances.two_arrays, Fin.sum_univ_one, Fin.sum_univ_three]

/-- C1: Newton's third law at the dispatch layer: for every valid input to
`coulomb`, `lennard_jones` and `bond_vibration_harmonic` (all pairwise
distances nonzero), the per-partner force batch at index `k` is the exact
negation of the pairwise force on the reference due to partner `k` alone,
the latter computed by an independent single-partner call. -/
theorem C1_newton_third_law_dispatch {n m : ℕ} (q_i : Vec m)
    (q_js : Fin n → Vec m) (c_i k_e : ℝ)
    (c_js a_ijs b_ijs d0_ijs k_b_ijs : Fin n → ℝ)
    (hd : ∀ k, (distances.two_arrays q_i q_js).2 k ≠ 0) :
    (∀ k i,
      (terms_multi_vectorized.coulomb q_i q_js c_i c_js k_e).2.1 k i =
        -(terms_multi_vectorized.coulomb q_i (fun _ : Fin 1 => q_js k) c_i
            (fun _ => c_js k) k_e).1 i) ∧
    (∀ k i,
      (terms_multi_vectorized.lennard_jones q_i q_js a_ijs b_ijs).2.1 k i =
        -(terms_multi_vectorized.lennard_jones q_i (fun _ : Fin 1 => q_js k)
            (fun _ => a_ijs k) (fun _ => b_ijs k)).1 i) ∧
    (∀ k i,
      (terms_multi_vectorized.bond_vibration_harmonic q_i q_js d0_ijs
          k_b_ijs).2.1 k i =
        -(terms_multi_vectorized.bond_vibration_harmonic q_i
            (fun _ : Fin 1 => q_js k) (fun _ => d0_ijs k)
            (fun _ => k_b_ijs k)).1 i) := by
  refine ⟨?_, ?_, ?_⟩ <;> intro k i <;>
    simp [terms_multi_vectorized.coulomb, terms_multi_vectorized.lennard_jones,
      terms_multi_vectorized.bond_vibration_harmonic, terms_lazy.coulomb,
      terms_lazy.lennard_jones, terms_lazy.bond_vibration_harmonic,
      distances.two_arrays, Fin.sum_univ_one]

/-- Witness for C1 at a concrete input: one partner in one spatial dimension,
reference at `0`, partner at `1`, all parameters `1`. -/
theorem C1_newton_third_law_dispatch_witness :
    (∀ k, (distances.two_arrays (m := 1) ![0] ![![1]]).2 k ≠ 0) ∧
    ((∀ k i,
      (terms_multi_vectorized.coulomb (m := 1) ![0] ![![1]] 1 ![1] 1).2.1 k i =
        -(terms_multi_vectorized.coulomb (m := 1) ![0]
            (fun _ : Fin 1 => ![![(1 : ℝ)]] k) 1
            (fun _ => ![(1 : ℝ)] k) 1).1 i) ∧
    (∀ k i,
      (terms_multi_vectorized.lennard_jones (m := 1) ![0] ![![1]]
          ![1] ![1]).2.1 k i =
        -(terms_multi_vectorized.lennard_jones (m := 1) ![0]
            (fun _ : Fin 1 => ![![(1 : ℝ)]] k) (fun _ => ![(1 : ℝ)] k)
            (fun _ => ![(1 : ℝ)] k)).1 i) ∧
    (∀ k i,
      (terms_multi_vectorized.bond_vibration_harmonic (m := 1) ![0] ![![1]]
          ![1] ![1]).2.1 k i =
        -(terms_multi_vectorized.bond_vibration_harmonic (m := 1) ![0]
            (fun _ : Fin 1 => ![![(1 : ℝ)]] k) (fun _ => ![(1 : ℝ)] k)
            (fun _ => ![(1 : ℝ)] k)).1 i)) := by
  have hd : ∀ k, (distances.two_arrays (m := 1) ![0] ![![1]]).2 k ≠ 0 := by
    intro k
    fin_cases k
    norm_num [distances.two_arrays, Fin.sum_univ_one, Real.sqrt_one]
  exact ⟨hd,
    C1_newton_third_law_dispatch ![0] ![![1]] 1 1 ![1] ![1] ![1] ![1] ![1] hd⟩

/-- C2: Superposition at the dispatch layer: for every valid input, the total
force on the reference returned by each term function equals the elementwise
sum over the partner index `k` of the pairwise force on the reference due to
partner `k` alone, the latter computed by an independent single-partner
call. -/
theorem C2_superposition_dispatch {n m : ℕ} (q_i : Vec m)
    (q_js : Fin n → Vec m) (c_i k_e : ℝ)
    (c_js a_ijs b_ijs d0_ijs k_b_ijs : Fin n → ℝ)
    (hd : ∀ k, (distances.two_arrays q_i q_js).2 k ≠ 0) :
    (∀ i,
      (terms_multi_vectorized.coulomb q_i q_js c_i c_js k_e).1 i =
        ∑ k, (terms_multi_vectorized.coulomb q_i (fun _ : Fin 1 => q_js k) c_i
            (fun _ => c_js k) k_e).1 i) ∧
    (∀ i,
      (terms_multi_vectorized.lennard_jones q_i q_js a_ijs b_ijs).1 i =
        ∑ k, (terms_multi_vectorized.lennard_jones q_i (fun _ : Fin 1 => q_js k)
            (fun _ => a_ijs k) (fun _ => b_ijs k)).1 i) ∧
    (∀ i,
      (terms_multi_vectorized.bond_vibration_harmonic q_i q_js d0_ijs
          k_b_ijs).1 i =
        ∑ k, (terms_multi_vectorized.bond_vibration_harmonic q_i
            (fun _ : Fin 1 => q_js k) (fun _ => d0_ijs k)
            (fun _ => k_b_ijs k)).1 i) := by
  refine ⟨?_, ?_, ?_⟩ <;> intro i <;>
    simp [terms_multi_vectorized.coulomb, terms_multi_vectorized.lennard_jones,
      terms_multi_vectorized.bond_vibration_harmonic, terms_lazy.coulomb,
      terms_lazy.lennard_jones, terms_lazy.bond_vibration_harmonic,
      distances.two_arrays, Fin.sum_univ_one]

/-- Witness for C2 at a concrete input: one partner in one spatial dimension,
reference at `0`, partner at `1`, all parameters `1`. -/
theorem C2_superposition_dispatch_witness :
    (∀ k, (distances.two_arrays (m := 1) ![0] ![![1]]).2 k ≠ 0) ∧
    ((∀ i,
      (terms_multi_vectorized.coulomb (m := 1) ![0] ![![1]] 1 ![1] 1).1 i =
        ∑ k, (terms_multi_vectorized.coulomb (m := 1) ![0]
            (fun _ : Fin 1 => ![![(1 : ℝ)]] k) 1
            (fun _ => ![(1 : ℝ)] k) 1).1 i) ∧
    (∀ i,
      (terms_multi_vectorized.lennard_jones (m := 1) ![0] ![![1]]
          ![1] ![1]).1 i =
        ∑ k, (terms_multi_vectorized.lennard_jones (m := 1) ![0]
            (fun _ : Fin 1 => ![![(1 : ℝ)]] k) (fun _ => ![(1 : ℝ)] k)
            (fun _ => ![(1 : ℝ)] k)).1 i) ∧
    (∀ i,
      (terms_multi_vectorized.bond_vibration_harmonic (m := 1) ![0] ![![1]]
          ![1] ![1]).1 i =
        ∑ k, (terms_multi_vectorized.bond_vibration_harmonic (m := 1) ![0]
            (fun _ : Fin 1 => ![![(1 : ℝ)]] k) (fun _ => ![(1 : ℝ)] k)
            (fun _ => ![(1 : ℝ)] k)).1 i)) := by
  have hd : ∀ k, (distances.two_arrays (m := 1) ![0] ![![1]]).2 k ≠ 0 := by
    intro k
    fin_cases k
    norm_num [distances.two_arrays, Fin.sum_univ_one, Real.sqrt_one]
  exact ⟨hd,
    C2_superposition_dispatch ![0] ![![1]] 1 1 ![1] ![1] ![1] ![1] ![1] hd⟩

/-- C10: Momentum conservation across the returned arrays: for every valid
input, the total force on the reference plus the sum of the per-partner force
batch is exactly the zero vector, for each of the three implemented terms. -/
theorem C10_momentum_conservation {n m : ℕ} (q_i : Vec m)
    (q_js : Fin n → Vec m) (c_i k_e : ℝ)
    (c_js a_ijs b_ijs d0_ijs k_b_ijs : Fin n → ℝ)
    (hd : ∀ k, (distances.two_arrays q_i q_js).2 k ≠ 0) :
    (∀ i,
      (terms_multi_vectorized.coulomb q_i q_js c_i c_js k_e).1 i +
        ∑ k, (terms_multi_vectorized.coulomb q_i q_js c_i c_js k_e).2.1 k i
        = 0) ∧
    (∀ i,
      (terms_multi_vectorized.lennard_jones q_i q_js a_ijs b_ijs).1 i +
        ∑ k, (terms_multi_vectorized.lennard_jones q_i q_js a_ijs
            b_ijs).2.1 k i = 0) ∧
    (∀ i,
      (terms_multi_vectorized.bond_vibration_harmonic q_i q_js d0_ijs
          k_b_ijs).1 i +
        ∑ k, (terms_multi_vectorized.bond_vibration_harmonic q_i q_js d0_ijs
            k_b_ijs).2.1 k i = 0) := by
  refine ⟨?_, ?_, ?_⟩ <;> intro i <;>
    simp [terms_multi_vectorized.coulomb, terms_multi_vectorized.lennard_jones,
      terms_multi_vectorized.bond_vibration_harmonic, terms_lazy.coulomb,
      terms_lazy.lennard_jones, terms_lazy.bond_vibration_harmonic,
      distances.two_arrays]

/-- Witness for C10 at a concrete input: one partner in one spatial dimension,
reference at `0`, partner at `1`, all parameters `1`. -/
theorem C10_momentum_conservation_witness :
    (∀ k, (distances.two_arrays (m := 1) ![0] ![![1]]).2 k ≠ 0) ∧
    ((∀ i,
      (terms_multi_vectorized.coulomb (m := 1) ![0] ![![1]] 1 ![1] 1).1 i +
        ∑ k, (terms_multi_vectorized.coulomb (m := 1) ![0] ![![1]] 1 ![1]
            1).2.1 k i = 0) ∧
    (∀ i,
      (terms_multi_vectorized.lennard_jones (m := 1) ![0] ![![1]]
          ![1] ![1]).1 i +
        ∑ k, (terms_multi_vectorized.lennard_jones (m := 1) ![0] ![![1]]
            ![1] ![1]).2.1 k i = 0) ∧
    (∀ i,
      (terms_multi_vectorized.bond_vibration_harmonic (m := 1) ![0] ![![1]]
          ![1] ![1]).1 i +
        ∑ k, (terms_multi_vectorized.bond_vibration_harmonic (m := 1) ![0]
            ![![1]] ![1] ![1]).2.1 k i = 0)) := by
  have hd : ∀ k, (distances.two_arrays (m := 1) ![0] ![![1]]).2 k ≠ 0 := by
    intro k
    fin_cases k
    norm_num [distances.two_arrays, Fin.sum_univ_one, Real.sqrt_one]
  exact ⟨hd,
    C10_momentum_conservation ![0] ![![1]] 1 1 ![1] ![1] ![1] ![1] ![1] hd⟩

/-- C3: Coulomb formula: with `rel k = q_i - q_js k` and
`dist k = √(∑ j, (rel k j)²) ≠ 0`, `coulomb` returns per-pair energies
`e k = k_e * c_i * c_js k / dist k`, and the pairwise force on the reference
from partner `k` (whose negation is entry `k` of the per-partner force batch)
equals `e k / dist k ^ 2 * rel k`. -/
theorem C3_coulomb_formula {n m : ℕ} (q_i : Vec m) (q_js : Fin n → Vec m)
    (c_i : ℝ) (c_js : Fin n → ℝ) (k_e : ℝ)
    (hd : ∀ k, Real.sqrt (∑ j, (q_i j - q_js k j) ^ 2) ≠ 0) :
    ∀ k,
      (terms_multi_vectorized.coulomb q_i q_js c_i c_js k_e).2.2 k =
        k_e * c_i * c_js k / Real.sqrt (∑ j, (q_i j - q_js k j) ^ 2) ∧
      ∀ i,
        -(terms_multi_vectorized.coulomb q_i q_js c_i c_js k_e).2.1 k i =
          (terms_multi_vectorized.coulomb q_i q_js c_i c_js k_e).2.2 k /
            Real.sqrt (∑ j, (q_i j - q_js k j) ^ 2) ^ 2 *
            (q_i i - q_js k i) := by
  intro k
  constructor
  · simp only [terms_multi_vectorized.coulomb, terms_lazy.coulomb,
      distances.two_arrays]
    ring
  · intro i
    simp only [terms_multi_vectorized.coulomb, terms_lazy.coulomb,
      distances.two_arrays, neg_neg]

/-- Witness for C3 at a concrete input: one partner in one spatial dimension,
reference at `0`, partner at `1`, all parameters `1`. -/
theorem C3_coulomb_formula_witness :
    (∀ k : Fin 1,
      Real.sqrt (∑ j, ((![0] : Vec 1) j - ![![(1 : ℝ)]] k j) ^ 2) ≠ 0) ∧
    ∀ k,
      (terms_multi_vectorized.coulomb (m := 1) ![0] ![![1]] 1 ![1] 1).2.2 k =
        1 * 1 * ![(1 : ℝ)] k /
          Real.sqrt (∑ j, ((![0] : Vec 1) j - ![![(1 : ℝ)]] k j) ^ 2) ∧
      ∀ i,
        -(terms_multi_vectorized.coulomb (m := 1) ![0] ![![1]] 1
            ![1] 1).2.1 k i =
          (terms_multi_vectorized.coulomb (m := 1) ![0] ![![1]] 1
              ![1] 1).2.2 k /
            Real.sqrt (∑ j, ((![0] : Vec 1) j - ![![(1 : ℝ)]] k j) ^ 2) ^ 2 *
            ((![0] : Vec 1) i - ![![(1 : ℝ)]] k i) := by
  have hd : ∀ k : Fin 1,
      Real.sqrt (∑ j, ((![0] : Vec 1) j - ![![(1 : ℝ)]] k j) ^ 2) ≠ 0 := by
    intro k
    fin_cases k
    norm_num [Fin.sum_univ_one, Real.sqrt_one]
  exact ⟨hd, C3_coulomb_formula ![0] ![![1]] 1 ![1] 1 hd⟩

/-- C4: Lennard-Jones formula: with `rel k = q_i - q_js k` and
`dist k = √(∑ j, (rel k j)²) ≠ 0`, `lennard_jones` returns per-pair energies
`e k = a k / dist k ^ 12 - b k / dist k ^ 6`, and the pairwise force on the
reference from partner `k` equals
`(12 * a k / dist k ^ 14 - 6 * b k / dist k ^ 8) * rel k`. -/
theorem C4_lennard_jones_formula {n m : ℕ} (q_i : Vec m)
    (q_js : Fin n → Vec m) (a_ijs b_ijs : Fin n → ℝ)
    (hd : ∀ k, Real.sqrt (∑ j, (q_i j - q_js k j) ^ 2) ≠ 0) :
    ∀ k,
      (terms_multi_vectorized.lennard_jones q_i q_js a_ijs b_ijs).2.2 k =
        a_ijs k / Real.sqrt (∑ j, (q_i j - q_js k j) ^ 2) ^ 12 -
          b_ijs k / Real.sqrt (∑ j, (q_i j - q_js k j) ^ 2) ^ 6 ∧
      ∀ i,
        -(terms_multi_vectorized.lennard_jones q_i q_js a_ijs
            b_ijs).2.1 k i =
          (12 * a_ijs k / Real.sqrt (∑ j, (q_i j - q_js k j) ^ 2) ^ 14 -
              6 * b_ijs k / Real.sqrt (∑ j, (q_i j - q_js k j) ^ 2) ^ 8) *
            (q_i i - q_js k i) := by
  intro k
  constructor
  · simp only [terms_multi_vectorized.lennard_jones, terms_lazy.lennard_jones,
      distances.two_arrays]
  · intro i
    simp only [terms_multi_vectorized.lennard_jones, terms_lazy.lennard_jones,
      distances.two_arrays, neg_neg]

/-- Witness for C4 at a concrete input: one partner in one spatial dimension,
reference at `0`, partner at `1`, both coefficients `1`. -/
theorem C4_lennard_jones_formula_witness :
    (∀ k : Fin 1,
      Real.sqrt (∑ j, ((![0] : Vec 1) j - ![![(1 : ℝ)]] k j) ^ 2) ≠ 0) ∧
    ∀ k,
      (terms_multi_vectorized.lennard_jones (m := 1) ![0] ![![1]]
          ![1] ![1]).2.2 k =
        ![(1 : ℝ)] k /
            Real.sqrt (∑ j, ((![0] : Vec 1) j - ![![(1 : ℝ)]] k j) ^ 2) ^ 12 -
          ![(1 : ℝ)] k /
            Real.sqrt (∑ j, ((![0] : Vec 1) j - ![![(1 : ℝ)]] k j) ^ 2) ^ 6 ∧
      ∀ i,
        -(terms_multi_vectorized.lennard_jones (m := 1) ![0] ![![1]]
            ![1] ![1]).2.1 k i =
          (12 * ![(1 : ℝ)] k /
              Real.sqrt (∑ j, ((![0] : Vec 1) j - ![![(1 : ℝ)]] k j) ^ 2) ^ 14 -
            6 * ![(1 : ℝ)] k /
              Real.sqrt (∑ j, ((![0] : Vec 1) j - ![![(1 : ℝ)]] k j) ^ 2) ^ 8) *
            ((![0] : Vec 1) i - ![![(1 : ℝ)]] k i) := by
  have hd : ∀ k : Fin 1,
      Real.sqrt (∑ j, ((![0] : Vec 1) j - ![![(1 : ℝ)]] k j) ^ 2) ≠ 0 := by
    intro k
    fin_cases k
    norm_num [Fin.sum_univ_one, Real.sqrt_one]
  exact ⟨hd, C4_lennard_jones_formula ![0] ![![1]] ![1] ![1] hd⟩

/-- C5: Harmonic bond formula and factor-convention consistency: with
`rel k = q_i - q_js k` and `dist k ≠ 0`, `bond_vibration_harmonic` returns
per-pair energies `e k = k_b k * (dist k - d0 k) ^ 2` (no ½ prefactor), the
pairwise force on the reference from partner `k` equals
`-2 * k_b k * (dist k - d0 k) / dist k * rel k`, the radial energy profile
`s ↦ k_b k * (s - d0 k) ^ 2` has derivative `2 * k_b k * (s - d0 k)`
everywhere, and the force equals minus that derivative taken at `dist k` times
the unit displacement vector `rel k / dist k` — so energy and force use the
same (½-free) prefactor convention. -/
theorem C5_bond_formula {n m : ℕ} (q_i : Vec m) (q_js : Fin n → Vec m)
    (d0_ijs k_b_ijs : Fin n → ℝ)
    (hd : ∀ k, Real.sqrt (∑ j, (q_i j - q_js k j) ^ 2) ≠ 0) :
    ∀ k,
      (terms_multi_vectorized.bond_vibration_harmonic q_i q_js d0_ijs
          k_b_ijs).2.2 k =
        k_b_ijs k *
          (Real.sqrt (∑ j, (q_i j - q_js k j) ^ 2) - d0_ijs k) ^ 2 ∧
      (∀ i,
        -(terms_multi_vectorized.bond_vibration_harmonic q_i q_js d0_ijs
            k_b_ijs).2.1 k i =
          -2 * k_b_ijs k *
              (Real.sqrt (∑ j, (q_i j - q_js k j) ^ 2) - d0_ijs k) /
              Real.sqrt (∑ j, (q_i j - q_js k j) ^ 2) *
            (q_i i - q_js k i)) ∧
      (∀ r : ℝ,
        HasDerivAt (fun s => k_b_ijs k * (s - d0_ijs k) ^ 2)
          (2 * k_b_ijs k * (r - d0_ijs k)) r) ∧
      (∀ i,
        -(terms_multi_vectorized.bond_vibration_harmonic q_i q_js d0_ijs
            k_b_ijs).2.1 k i =
          -(2 * k_b_ijs k *
              (Real.sqrt (∑ j, (q_i j - q_js k j) ^ 2) - d0_ijs k)) *
            ((q_i i - q_js k i) /
              Real.sqrt (∑ j, (q_i j - q_js k j) ^ 2))) := by
  intro k
  refine ⟨?_, ?_, ?_, ?_⟩
  · simp only [terms_multi_vectorized.bond_vibration_harmonic,
      terms_lazy.bond_vibration_harmonic, distances.two_arrays]
  · intro i
    simp only [terms_multi_vectorized.bond_vibration_harmonic,
      terms_lazy.bond_vibration_harmonic, distances.two_arrays, neg_neg]
  · intro r
    have h1 : HasDerivAt (fun s : ℝ => s - d0_ijs k) 1 r :=
      (hasDerivAt_id r).sub_const _
    have h2 := (h1.pow 2).const_mul (k_b_ijs k)
    convert h2 using 1
    ring
  · intro i
    simp only [terms_multi_vectorized.bond_vibration_harmonic,
      terms_lazy.bond_vibration_harmonic, distances.two_arrays, neg_neg]
    ring

/-- Witness for C5 at a concrete input: one partner in one spatial dimension,
reference at `0`, partner at `1`, equilibrium length and force constant `1`. -/
theorem C5_bond_formula_witness :
    (∀ k : Fin 1,
      Real.sqrt (∑ j, ((![0] : Vec 1) j - ![![(1 : ℝ)]] k j) ^ 2) ≠ 0) ∧
    ∀ k,
      (terms_multi_vectorized.bond_vibration_harmonic (m := 1) ![0] ![![1]]
          ![1] ![1]).2.2 k =
        ![(1 : ℝ)] k *
          (Real.sqrt (∑ j, ((![0] : Vec 1) j - ![![(1 : ℝ)]] k j) ^ 2) -
            ![(1 : ℝ)] k) ^ 2 ∧
      (∀ i,
        -(terms_multi_vectorized.bond_vibration_harmonic (m := 1) ![0]
            ![![1]] ![1] ![1]).2.1 k i =
          -2 * ![(1 : ℝ)] k *
              (Real.sqrt (∑ j, ((![0] : Vec 1) j - ![![(1 : ℝ)]] k j) ^ 2) -
                ![(1 : ℝ)] k) /
              Real.sqrt (∑ j, ((![0] : Vec 1) j - ![![(1 : ℝ)]] k j) ^ 2) *
            ((![0] : Vec 1) i - ![![(1 : ℝ)]] k i)) ∧
      (∀ r : ℝ,
        HasDerivAt (fun s => ![(1 : ℝ)] k * (s - ![(1 : ℝ)] k) ^ 2)
          (2 * ![(1 : ℝ)] k * (r - ![(1 : ℝ)] k)) r) ∧
      (∀ i,
        -(terms_multi_vectorized.bond_vibration_harmonic (m := 1) ![0]
            ![![1]] ![1] ![1]).2.1 k i =
          -(2 * ![(1 : ℝ)] k *
              (Real.sqrt (∑ j, ((![0] : Vec 1) j - ![![(1 : ℝ)]] k j) ^ 2) -
                ![(1 : ℝ)] k)) *
            (((![0] : Vec 1) i - ![![(1 : ℝ)]] k i) /
              Real.sqrt (∑ j, ((![0] : Vec 1) j - ![![(1 : ℝ)]] k j) ^ 2))) := by
  have hd : ∀ k : Fin 1,
      Real.sqrt (∑ j, ((![0] : Vec 1) j - ![![(1 : ℝ)]] k j) ^ 2) ≠ 0 := by
    intro k
    fin_cases k
    norm_num [Fin.sum_univ_one, Real.sqrt_one]
  exact ⟨hd, C5_bond_formula ![0] ![![1]] ![1] ![1] hd⟩

/-- C6 counterexample: at a concrete input, `angle_vibration_harmonic`
completes normally and returns the Python `None` placeholder
(`PyResult.pyNone`, a constructor distinct from `PyResult.raised`), and so do
`dihedral` and `improper_dihedral`: contrary to the claim, no
unsupported-operation error is raised and the calls do complete normally. -/
theorem C6_unimplemented_counterexample :
    terms_multi_vectorized.angle_vibration_harmonic (n := 1) (m := 1)
        ![![0]] ![0] ![![0]] ![0] ![0] =
      terms_multi_vectorized.PyResult.pyNone ∧
    terms_multi_vectorized.dihedral =
      terms_multi_vectorized.PyResult.pyNone ∧
    terms_multi_vectorized.improper_dihedral =
      terms_multi_vectorized.PyResult.pyNone :=
  ⟨rfl, rfl, rfl⟩

/-- C6 amended: for every input, calling `angle_vibration_harmonic`,
`dihedral`, or `improper_dihedral` completes normally and returns the Python
`None` placeholder: it never raises, and it never produces a (possibly
silently wrong) numeric result. -/
theorem C6_unimplemented_return_none {n m : ℕ} (q_is : Fin n → Vec m)
    (q_j : Vec m) (q_ks : Fin n → Vec m)
    (angle0_isjks k_a_isjks : Fin n → ℝ) :
    terms_multi_vectorized.angle_vibration_harmonic q_is q_j q_ks
        angle0_isjks k_a_isjks = terms_multi_vectorized.PyResult.pyNone ∧
    terms_multi_vectorized.dihedral =
      terms_multi_vectorized.PyResult.pyNone ∧
    terms_multi_vectorized.improper_dihedral =
      terms_multi_vectorized.PyResult.pyNone :=
  ⟨rfl, rfl, rfl⟩

/-- The Euclidean distance is symmetric in the two endpoints. -/
theorem dist_swap {m : ℕ} (q_i q_j : Vec m) :
    Real.sqrt (∑ i, (q_j i - q_i i) ^ 2) =
      Real.sqrt (∑ i, (q_i i - q_j i) ^ 2) := by
  congr 1
  refine Finset.sum_congr rfl fun i _ => ?_
  ring

/-- C7: Symmetry under swap on a single pair: evaluating Coulomb,
Lennard-Jones or harmonic-bond with the two particles' roles exchanged —
`(j, i)` instead of `(i, j)`, same per-pair parameters — yields the identical
per-pair potential energy, and a total force on the new reference particle
that is the exact negation of the total force on the original reference. -/
theorem C7_swap_symmetry {m : ℕ} (q_i q_j : Vec m)
    (c_i c_j k_e a_ij b_ij d0_ij k_b_ij : ℝ) :
    ((terms_multi_vectorized.coulomb q_j (fun _ : Fin 1 => q_i) c_j
        (fun _ => c_i) k_e).2.2 0 =
      (terms_multi_vectorized.coulomb q_i (fun _ : Fin 1 => q_j) c_i
        (fun _ => c_j) k_e).2.2 0) ∧
    (∀ i,
      (terms_multi_vectorized.coulomb q_j (fun _ : Fin 1 => q_i) c_j
          (fun _ => c_i) k_e).1 i =
        -(terms_multi_vectorized.coulomb q_i (fun _ : Fin 1 => q_j) c_i
            (fun _ => c_j) k_e).1 i) ∧
    ((terms_multi_vectorized.lennard_jones q_j (fun _ : Fin 1 => q_i)
        (fun _ => a_ij) (fun _ => b_ij)).2.2 0 =
      (terms_multi_vectorized.lennard_jones q_i (fun _ : Fin 1 => q_j)
        (fun _ => a_ij) (fun _ => b_ij)).2.2 0) ∧
    (∀ i,
      (terms_multi_vectorized.lennard_jones q_j (fun _ : Fin 1 => q_i)
          (fun _ => a_ij) (fun _ => b_ij)).1 i =
        -(terms_multi_vectorized.lennard_jones q_i (fun _ : Fin 1 => q_j)
            (fun _ => a_ij) (fun _ => b_ij)).1 i) ∧
    ((terms_multi_vectorized.bond_vibration_harmonic q_j
        (fun _ : Fin 1 => q_i) (fun _ => d0_ij) (fun _ => k_b_ij)).2.2 0 =
      (terms_multi_vectorized.bond_vibration_harmonic q_i
        (fun _ : Fin 1 => q_j) (fun _ => d0_ij) (fun _ => k_b_ij)).2.2 0) ∧
    (∀ i,
      (terms_multi_vectorized.bond_vibration_harmonic q_j
          (fun _ : Fin 1 => q_i) (fun _ => d0_ij) (fun _ => k_b_ij)).1 i =
        -(terms_multi_vectorized.bond_vibration_harmonic q_i
            (fun _ : Fin 1 => q_j) (fun _ => d0_ij) (fun _ => k_b_ij)).1 i) := by
  refine ⟨?_, fun i => ?_, ?_, fun i => ?_, ?_, fun i => ?_⟩ <;>
    simp only [terms_multi_vectorized.coulomb,
      terms_multi_vectorized.lennard_jones,
      terms_multi_vectorized.bond_vibration_harmonic, terms_lazy.coulomb,
      terms_lazy.lennard_jones, terms_lazy.bond_vibration_harmonic,
      distances.two_arrays, Fin.sum_univ_one] <;>
    rw [dist_swap q_i q_j] <;>
    ring

/-- If some element of the list fails, the error-propagating map fails. -/
theorem optionMap_eq_none {α β : Type} (f : α → Option β) :
    ∀ (l : List α) (a : α), a ∈ l → f a = none → optionMap f l = none := by
  intro l
  induction l with
  | nil => intro a ha _; cases ha
  | cons b l ih =>
    intro a ha hfa
    rcases List.mem_cons.mp ha with h | h
    · subst h
      simp [optionMap, hfa]
    · cases hfb : f b with
      | none => simp [optionMap, hfb]
      | some v => simp [optionMap, hfb, ih a h hfa]

/-- If every element succeeds, the error-propagating map returns the list of
successful results. -/
theorem optionMap_eq_map {α β : Type} (f : α → Option β) (g : α → β) :
    ∀ l : List α, (∀ a ∈ l, f a = some (g a)) →
      optionMap f l = some (l.map g) := by
  intro l
  induction l with
  | nil => intro _; rfl
  | cons b l ih =>
    intro h
    simp [optionMap, h b (List.mem_cons_self b l),
      ih fun a ha => h a (List.mem_cons_of_mem b ha)]

/-- At zero distance the instrumented Coulomb pair kernel takes the
division-by-zero branch. -/
theorem coulomb_pair_checked_zero {m : ℕ} (rel : Vec m) (c_ij k_e : ℝ) :
    coulomb_pair_checked rel 0 c_ij k_e = none := by
  simp [coulomb_pair_checked, cdiv]

/-- At zero distance the instrumented Lennard-Jones pair kernel takes the
division-by-zero branch. -/
theorem lennard_jones_pair_checked_zero {m : ℕ} (rel : Vec m) (a b : ℝ) :
    lennard_jones_pair_checked rel 0 a b = none := by
  norm_num [lennard_jones_pair_checked, cdiv]

/-- At nonzero distance no division of the instrumented Coulomb pair kernel
is by zero, and the result is the unguarded kernel value. -/
theorem coulomb_pair_checked_ne {m : ℕ} (rel : Vec m) (d c_ij k_e : ℝ)
    (hd : d ≠ 0) :
    coulomb_pair_checked rel d c_ij k_e =
      some (fun i => k_e * c_ij / d / d ^ 2 * rel i, k_e * c_ij / d) := by
  simp [coulomb_pair_checked, cdiv, hd, pow_eq_zero_iff]

/-- At nonzero distance no division of the instrumented Lennard-Jones pair
kernel is by zero, and the result is the unguarded kernel value. -/
theorem lennard_jones_pair_checked_ne {m : ℕ} (rel : Vec m) (d a b : ℝ)
    (hd : d ≠ 0) :
    lennard_jones_pair_checked rel d a b =
      some (fun i => (12 * a / d ^ 14 - 6 * b / d ^ 8) * rel i,
        a / d ^ 12 - b / d ^ 6) := by
  simp [lennard_jones_pair_checked, cdiv, hd, pow_eq_zero_iff]

/-- C9: Zero distance is unguarded: in the instrumented embedding of
`coulomb` and `lennard_jones` (every division guarded), an input with
`dist k = 0` for some `k` takes the division-by-zero error branch — the
result is never a silent zero or clipped value — while under the precondition
that every `dist k` is nonzero that branch is unreachable and the
instrumented run returns exactly the per-pair forces and energies of the
unguarded functions. -/
theorem C9_zero_distance_unguarded {n m : ℕ} (q_i : Vec m)
    (q_js : Fin n → Vec m) (c_i k_e : ℝ) (c_js a_ijs b_ijs : Fin n → ℝ) :
    ((∃ k, (distances.two_arrays q_i q_js).2 k = 0) →
      coulomb_checked q_i q_js c_i c_js k_e = none ∧
      lennard_jones_checked q_i q_js a_ijs b_ijs = none) ∧
    ((∀ k, (distances.two_arrays q_i q_js).2 k ≠ 0) →
      coulomb_checked q_i q_js c_i c_js k_e =
        some ((List.finRange n).map fun k =>
          (fun i =>
            -(terms_multi_vectorized.coulomb q_i q_js c_i c_js k_e).2.1 k i,
           (terms_multi_vectorized.coulomb q_i q_js c_i c_js k_e).2.2 k)) ∧
      lennard_jones_checked q_i q_js a_ijs b_ijs =
        some ((List.finRange n).map fun k =>
          (fun i =>
            -(terms_multi_vectorized.lennard_jones q_i q_js a_ijs
                b_ijs).2.1 k i,
           (terms_multi_vectorized.lennard_jones q_i q_js a_ijs
               b_ijs).2.2 k))) := by
  constructor
  · rintro ⟨k, hk⟩
    constructor
    · refine optionMap_eq_none _ _ k (List.mem_finRange k) ?_
      rw [hk]
      exact coulomb_pair_checked_zero _ _ _
    · refine optionMap_eq_none _ _ k (List.mem_finRange k) ?_
      rw [hk]
      exact lennard_jones_pair_checked_zero _ _ _
  · intro hd
    constructor
    · refine optionMap_eq_map _ _ _ fun k _ => ?_
      rw [coulomb_pair_checked_ne _ _ _ _ (hd k)]
      simp [terms_multi_vectorized.coulomb, terms_lazy.coulomb]
    · refine optionMap_eq_map _ _ _ fun k _ => ?_
      rw [lennard_jones_pair_checked_ne _ _ _ _ (hd k)]
      simp [terms_multi_vectorized.lennard_jones, terms_lazy.lennard_jones]

/-- Witness for C9 at concrete inputs in one spatial dimension: a coincident
pair (reference and partner both at `0`) takes the error branch; a separated
pair (partner at `1`) reaches no division by zero. -/
theorem C9_zero_distance_unguarded_witness :
    (∃ k, (distances.two_arrays (m := 1) ![0] ![![0]]).2 k = 0) ∧
    (coulomb_checked (m := 1) ![0] ![![0]] 1 ![1] 1 = none ∧
     lennard_jones_checked (m := 1) ![0] ![![0]] ![1] ![1] = none) ∧
    (∀ k, (distances.two_arrays (m := 1) ![0] ![![1]]).2 k ≠ 0) ∧
    (coulomb_checked (m := 1) ![0] ![![1]] 1 ![1] 1 =
      some ((List.finRange 1).map fun k =>
        (fun i =>
          -(terms_multi_vectorized.coulomb (m := 1) ![0] ![![1]] 1 ![1]
              1).2.1 k i,
         (terms_multi_vectorized.coulomb (m := 1) ![0] ![![1]] 1 ![1]
             1).2.2 k)) ∧
     lennard_jones_checked (m := 1) ![0] ![![1]] ![1] ![1] =
      some ((List.finRange 1).map fun k =>
        (fun i =>
          -(terms_multi_vectorized.lennard_jones (m := 1) ![0] ![![1]]
              ![1] ![1]).2.1 k i,
         (terms_multi_vectorized.lennard_jones (m := 1) ![0] ![![1]]
             ![1] ![1]).2.2 k))) := by
  have h0 : ∃ k, (distances.two_arrays (m := 1) ![0] ![![0]]).2 k = 0 :=
    ⟨0, by norm_num [distances.two_arrays, Fin.sum_univ_one, Real.sqrt_zero]⟩
  have h1 : ∀ k, (distances.two_arrays (m := 1) ![0] ![![1]]).2 k ≠ 0 := by
    intro k
    fin_cases k
    norm_num [distances.two_arrays, Fin.sum_univ_one, Real.sqrt_one]
  exact ⟨h0, (C9_zero_distance_unguarded _ _ _ _ _ _ _).1 h0, h1,
    (C9_zero_distance_unguarded _ _ _ _ _ _ _).2 h1⟩
